import Mathlib

/-!
Shallow embedding of `src/packages/vega/src/index.ts` (the Vega / Vega-Lite
mime renderer plugin).

JavaScript objects are modelled explicitly through a heap, because two of the
verified properties concern mutation and reference identity:

* a value (`JVal`) is a primitive (number, string, boolean, null) or a
  reference to a heap object;
* an object (`Obj`) is an association list of string keys to values; lookup
  takes the first match, so an object-literal/spread expression
  `\x7b...a, ...b\x7d` (where `b`'s keys win) is embedded as the list
  `fields b ++ fields a`;
* the heap (`Heap`) is a list of objects addressed by position; allocation
  appends, so existing addresses are never overwritten — which is exactly the
  shape of the source function, whose body is built from spread expressions
  and contains no assignment.

Numbers are embedded as rationals; the only numeric literals involved are
`400` and `400/1.5`, which are exact.
-/

namespace Vega

/-- A JavaScript runtime value: a JSON-ish primitive or a reference into the
heap. -/
inductive JVal where
  | num (q : ℚ)
  | str (s : String)
  | bool (b : Bool)
  | null
  | ref (a : Nat)
deriving DecidableEq, Repr

/-- A JavaScript object: ordered fields; lookup takes the first match. -/
abbrev Obj := List (String × JVal)

/-- The heap: objects addressed by list position. -/
abbrev Heap := List Obj

/-- The fields contributed by a spread `...v`: the fields of the referenced
object for an object reference, index/character fields for a string (as in
JavaScript), and nothing for other primitives. -/
def spreadFields (h : Heap) (v : JVal) : Obj :=
  match v with
  | .ref a => (h[a]?).getD []
  | .str s => s.toList.enum.map (fun p => (toString p.1, .str (String.mk [p.2])))
  | _ => []

/-- Embedding of `v.hasOwnProperty(k)`. For primitives this follows the boxed
behavior: numbers and booleans own no keys, strings own their index keys and
`length`. -/
def hasOwn (h : Heap) (v : JVal) (k : String) : Bool :=
  match v with
  | .ref a => ((h[a]?).getD []).lookup k |>.isSome
  | .str _ => k == "length" || ((spreadFields h v).lookup k).isSome
  | _ => false

/-- Embedding of the property read `v[k]` / `v.k` (`none` = `undefined`). -/
def getProp (h : Heap) (v : JVal) (k : String) : Option JVal :=
  match v with
  | .ref a => ((h[a]?).getD []).lookup k
  | .str s => if k == "length" then some (.num s.length)
              else (spreadFields h v).lookup k
  | _ => none

/-- The module constant `defaultCellConfig = \x7b"width": 400, "height": 400/1.5\x7d`
(`index.ts` lines 191-194). -/
def defaultCellConfig : Obj :=
  [("width", .num 400), ("height", .num (400 / 1.5))]

/-- Embedding of `Private.updateVegaLiteDefaults` (`index.ts` lines 203-217).

`dA` is the heap address at which the module constant `defaultCellConfig`
lives (the source refers to it by name; theorems that need its contents
assume `h[dA]? = some defaultCellConfig`).

Each object literal of the source allocates, in evaluation order (innermost
first); a spread reads the heap current at its evaluation point.  The three
returned expressions of the source are translated branch by branch:

* `spec.config.cell` exists:
  `\x7b...\x7b"config": \x7b...\x7b"cell": \x7b...defaultCellConfig, ...spec.config.cell\x7d\x7d\x7d, ...spec.config\x7d, ...spec\x7d`
* `spec.config` exists, no `cell`:
  `\x7b...\x7b"config": \x7b...\x7b"cell": \x7b...defaultCellConfig\x7d\x7d\x7d, ...spec.config\x7d, ...spec\x7d`
* no `config`:
  `\x7b...\x7b"config": \x7b"cell": defaultCellConfig\x7d\x7d, ...spec\x7d` (note: this branch
  aliases the constant rather than copying it). -/
def updateVegaLiteDefaults (h : Heap) (dA : Nat) (spec : JVal) : Heap × JVal :=
  if hasOwn h spec "config" then
    if hasOwn h ((getProp h spec "config").getD .null) "cell" then
      let cell := (getProp h ((getProp h spec "config").getD .null) "cell").getD .null
      let o1 := spreadFields h cell ++ spreadFields h (.ref dA)
      let h1 := h ++ [o1]
      let o2 : Obj := [("cell", .ref h.length)]
      let h2 := h1 ++ [o2]
      let o3 := spreadFields h2 (.ref (h.length + 1))
      let h3 := h2 ++ [o3]
      let o4 := spreadFields h3 ((getProp h3 spec "config").getD .null) ++
        [("config", .ref (h.length + 2))]
      let h4 := h3 ++ [o4]
      let o5 := spreadFields h4 spec ++ spreadFields h4 (.ref (h.length + 3))
      (h4 ++ [o5], .ref (h.length + 4))
    else
      let o1 := spreadFields h (.ref dA)
      let h1 := h ++ [o1]
      let o2 : Obj := [("cell", .ref h.length)]
      let h2 := h1 ++ [o2]
      let o3 := spreadFields h2 (.ref (h.length + 1))
      let h3 := h2 ++ [o3]
      let o4 := spreadFields h3 ((getProp h3 spec "config").getD .null) ++
        [("config", .ref (h.length + 2))]
      let h4 := h3 ++ [o4]
      let o5 := spreadFields h4 spec ++ spreadFields h4 (.ref (h.length + 3))
      (h4 ++ [o5], .ref (h.length + 4))
  else
    let o1 : Obj := [("cell", .ref dA)]
    let h1 := h ++ [o1]
    let o2 : Obj := [("config", .ref h.length)]
    let h2 := h1 ++ [o2]
    let o3 := spreadFields h2 spec ++ spreadFields h2 (.ref (h.length + 1))
    (h2 ++ [o3], .ref (h.length + 2))

/-- The MIME type for Vega (`index.ts` line 49). -/
def VEGA_MIME_TYPE : String := "application/vnd.vega.v2+json"

/-- The MIME type for Vega-Lite (`index.ts` line 58). -/
def VEGALITE_MIME_TYPE : String := "application/vnd.vegalite.v1+json"

/-- The state a `RenderedVega` widget holds after construction: its bound
MIME type and its render mode. -/
structure RenderedVega where
  _mimeType : String
  _mode : String
deriving DecidableEq, Repr

/-- Embedding of the `RenderedVega` constructor (`index.ts` lines 69-82):
the mode is `vega` exactly when the MIME type equals `VEGA_MIME_TYPE`,
otherwise `vega-lite`. -/
def RenderedVega.create (mimeType : String) : RenderedVega :=
  if mimeType == VEGA_MIME_TYPE then
    { _mimeType := mimeType, _mode := "vega" }
  else
    { _mimeType := mimeType, _mode := "vega-lite" }

/-- The `embedSpec` object handed to the external `embed` call. -/
structure EmbedSpec where
  mode : String
  spec : JVal
deriving DecidableEq, Repr

/-- What the executor of the promise returned by `renderModel` can do when
the embedder invokes its completion callback. -/
inductive PromiseAction where
  | resolveUndef
  | rejectWith (e : JVal)
deriving DecidableEq, Repr

/-- The observable effect of one `renderModel` call: the heap after the
(possible) default merge, the `\x7bmode, spec\x7d` object handed to `embed`, and the
completion callback the source passes to `embed` (as a function of the
`(error, result)` pair the embedder supplies). -/
structure RenderCall where
  heap : Heap
  embedSpec : EmbedSpec
  callback : JVal → JVal → PromiseAction

/-- Embedding of `RenderedVega.renderModel` (`index.ts` lines 87-109):
look the payload up under the bound MIME type, apply the default merge only
in `vega-lite` mode, hand `\x7bmode, spec\x7d` to the embedder, and pass a callback
whose body is `resolve(undefined)`. -/
def RenderedVega.renderModel (rv : RenderedVega) (h : Heap) (dA : Nat)
    (modelData : String → JVal) : RenderCall :=
  let data := modelData rv._mimeType
  let merged := if rv._mode == "vega-lite" then updateVegaLiteDefaults h dA data
                else (h, data)
  { heap := merged.1
    embedSpec := { mode := rv._mode, spec := merged.2 }
    callback := fun _error _result => PromiseAction.resolveUndef }

/-- The factory's `mimeTypes` field (`index.ts` line 124). -/
def mimeTypes : List String := [VEGA_MIME_TYPE, VEGALITE_MIME_TYPE]

/-- JavaScript `Array.prototype.indexOf`: first index of `s`, `-1` if
absent. -/
def jsIndexOfAux (l : List String) (s : String) (i : Int) : Int :=
  match l with
  | [] => -1
  | x :: xs => if x == s then i else jsIndexOfAux xs s (i + 1)

/-- JavaScript `l.indexOf(s)`. -/
def jsIndexOf (l : List String) (s : String) : Int := jsIndexOfAux l s 0

/-- Embedding of `VegaRendererFactory.canCreateRenderer`
(`index.ts` lines 129-131): `this.mimeTypes.indexOf(options.mimeType) !== -1`. -/
def canCreateRenderer (mimeType : String) : Bool :=
  jsIndexOf mimeTypes mimeType != -1

end Vega

namespace Vega

/-! ### Shared helper lemmas about the heap model -/

/-- An address that resolves in a heap is within bounds. -/
theorem lt_length_of_getElem (l : Heap) (n : Nat) (o : Obj)
    (hx : l[n]? = some o) : n < l.length := by
  rcases List.getElem?_eq_some_iff.mp hx with ⟨hlt, _⟩
  exact hlt

/-- Allocations do not change what pre-existing addresses resolve to. -/
theorem getElem_append_of_lt (l ext : Heap) (n : Nat) (hn : n < l.length) :
    (l ++ ext)[n]? = l[n]? :=
  List.getElem?_append_left hn

/-! ### C6, C7: renderModel -/

/-- C6: for a view constructed in vega mode (the Vega MIME type), the spec
handed to the external embedder is exactly the payload looked up from the
model under the view's bound MIME type, the mode tag is `vega`, and the heap
is untouched: no default merge or other transformation happens. -/
theorem renderModel_vega_passthrough (h : Heap) (dA : Nat) (d : String → JVal) :
    (RenderedVega.create VEGA_MIME_TYPE).renderModel h dA d =
      { heap := h
        embedSpec := { mode := "vega", spec := d VEGA_MIME_TYPE }
        callback := fun _e _r => PromiseAction.resolveUndef } := rfl

/-- C7: whatever view the factory created and whatever `(error, result)` pair
the external embedder passes to the completion callback — including a non-null
error — the callback resolves the promise (with `undefined`); it never
rejects. -/
theorem renderModel_callback_always_resolves (m : String) (h : Heap) (dA : Nat)
    (d : String → JVal) (e r : JVal) :
    ((RenderedVega.create m).renderModel h dA d).callback e r =
      PromiseAction.resolveUndef := rfl

/-! ### C8: canCreateRenderer -/

/-- C8: `canCreateRenderer` returns `true` exactly on the two registered MIME
type constants, and `false` on every other string. -/
theorem canCreateRenderer_iff (m : String) :
    canCreateRenderer m = true ↔
      (m = VEGA_MIME_TYPE ∨ m = VEGALITE_MIME_TYPE) := by
  by_cases h1 : VEGA_MIME_TYPE = m
  · simp [canCreateRenderer, jsIndexOf, jsIndexOfAux, mimeTypes, h1]
  · by_cases h2 : VEGALITE_MIME_TYPE = m
    · simp [canCreateRenderer, jsIndexOf, jsIndexOfAux, mimeTypes, h1, h2]
    · simp [canCreateRenderer, jsIndexOf, jsIndexOfAux, mimeTypes, h1, h2]
      constructor
      · intro hq; exact absurd hq.symm h1
      · intro hq; exact absurd hq.symm h2

/-! ### C9: constructor mode default -/

/-- C9: constructing a view with any MIME type other than the Vega constant —
including unrecognized strings — yields the `vega-lite` mode; the (total)
constructor never fails. -/
theorem create_unrecognized_mime_mode (m : String) (hm : m ≠ VEGA_MIME_TYPE) :
    (RenderedVega.create m)._mode = "vega-lite" := by
  simp [RenderedVega.create, hm]

/-- Witness for C9 at the concrete unrecognized MIME type `text/plain`. -/
theorem create_unrecognized_mime_mode_witness :
    "text/plain" ≠ VEGA_MIME_TYPE ∧
      (RenderedVega.create "text/plain")._mode = "vega-lite" :=
  ⟨by decide, create_unrecognized_mime_mode "text/plain" (by decide)⟩

end Vega

namespace Vega

/-! ### Concrete input heaps used to exercise the merge

Each heap holds `defaultCellConfig` at address 0 (the module constant) and a
spec object at the last address. -/

/-- The spec `\x7bconfig: \x7b\x7d\x7d`: a `config` key whose value is the empty object
(address 1); the spec object is at address 2. -/
def demoHeapA : Heap := [defaultCellConfig, [], [("config", JVal.ref 1)]]

/-- The spec `\x7bconfig: \x7bcell: \x7bwidth: 999\x7d\x7d\x7d`: cell object at address 1,
config object at address 2, spec object at address 3. -/
def demoHeapB : Heap :=
  [defaultCellConfig, [("width", JVal.num 999)],
   [("cell", JVal.ref 1)], [("config", JVal.ref 2)]]

/-- The spec `\x7bconfig: \x7bother: "x"\x7d\x7d`: config object at address 1, spec
object at address 2. -/
def demoHeapC : Heap :=
  [defaultCellConfig, [("other", JVal.str "x")], [("config", JVal.ref 1)]]

/-! ### C1, C2, C3: what the code actually returns when `config` is present

In every branch where the input spec has a `config` key, the trailing
`...spec` spread of the source places the caller's original `config` value
over the synthesized one, so the built default-merged cell object is
discarded. -/

/-- C1 (failing input `\x7bconfig: \x7b\x7d\x7d`): the result's `config` is the caller's
original (empty) config object, and `config.cell` is absent altogether — so
the merged spec does not contain a `config.cell` object with `width` and
`height`, contradicting the claimed invariant. -/
theorem config_present_no_cell_defaults_injected :
    (updateVegaLiteDefaults demoHeapA 0 (.ref 2)).2 = .ref 7 ∧
    getProp (updateVegaLiteDefaults demoHeapA 0 (.ref 2)).1 (.ref 7) "config" =
      some (.ref 1) ∧
    getProp (updateVegaLiteDefaults demoHeapA 0 (.ref 2)).1 (.ref 1) "cell" =
      none := by
  refine ⟨by decide, by decide, by decide⟩

/-- C2 (failing input `\x7bconfig: \x7bcell: \x7bwidth: 999\x7d\x7d\x7d`): the result's
`config` is the caller's original config object, whose `cell` is the caller's
original `\x7bwidth: 999\x7d`; `width` is 999 but `height` is absent — the default
`400/1.5` is never filled in, contradicting the claim. -/
theorem partial_cell_override_height_not_filled :
    (updateVegaLiteDefaults demoHeapB 0 (.ref 3)).2 = .ref 8 ∧
    getProp (updateVegaLiteDefaults demoHeapB 0 (.ref 3)).1 (.ref 8) "config" =
      some (.ref 2) ∧
    getProp (updateVegaLiteDefaults demoHeapB 0 (.ref 3)).1 (.ref 2) "cell" =
      some (.ref 1) ∧
    getProp (updateVegaLiteDefaults demoHeapB 0 (.ref 3)).1 (.ref 1) "width" =
      some (.num 999) ∧
    getProp (updateVegaLiteDefaults demoHeapB 0 (.ref 3)).1 (.ref 1) "height" =
      none := by
  refine ⟨by decide, by decide, by decide, by decide, by decide⟩

/-- C3 (failing input `\x7bconfig: \x7bother: "x"\x7d\x7d`): the result's `config` is the
caller's original config object: `config.other` is preserved, but
`config.cell` is absent instead of being the default record, contradicting
the claim. -/
theorem config_without_cell_not_defaulted :
    (updateVegaLiteDefaults demoHeapC 0 (.ref 2)).2 = .ref 7 ∧
    getProp (updateVegaLiteDefaults demoHeapC 0 (.ref 2)).1 (.ref 7) "config" =
      some (.ref 1) ∧
    getProp (updateVegaLiteDefaults demoHeapC 0 (.ref 2)).1 (.ref 1) "other" =
      some (.str "x") ∧
    getProp (updateVegaLiteDefaults demoHeapC 0 (.ref 2)).1 (.ref 1) "cell" =
      none := by
  refine ⟨by decide, by decide, by decide, by decide⟩

/-! ### C10: the merge is not the identity on specs that have `config` -/

/-- C10 counterexample (input `\x7bconfig: \x7bother: "x"\x7d\x7d`): the result is not
pointwise equal to the input spec: the input object has no top-level `other`
key, but the result does (the inner `...spec.config` spread leaks
`spec.config`'s keys to the result's top level). -/
theorem merge_not_identity_on_config_specs :
    getProp (updateVegaLiteDefaults demoHeapC 0 (.ref 2)).1
      (updateVegaLiteDefaults demoHeapC 0 (.ref 2)).2 "other" =
        some (.str "x") ∧
    getProp demoHeapC (.ref 2) "other" = none := by
  refine ⟨by decide, by decide⟩

end Vega

namespace Vega

/-- Indexing past the original heap reads the freshly allocated extension. -/
theorem getElem_append_offset (h ext : Heap) (i : Nat) :
    (h ++ ext)[h.length + i]? = ext[i]? := by
  rw [List.getElem?_append_right (Nat.le_add_right _ _)]
  congr 1
  omega

/-- Spreading a reference into a pre-existing object is unaffected by
allocations made after it was created. -/
theorem spreadFields_ref_append (h ext : Heap) (a : Nat) (o : Obj)
    (ha : h[a]? = some o) : spreadFields (h ++ ext) (.ref a) = o := by
  have hlt := lt_length_of_getElem h a o ha
  simp [spreadFields, List.getElem?_append_left hlt, ha]

/-- C5: the merge never mutates its input: every branch of the source builds
only fresh object literals, so the output heap is the input heap extended
with newly allocated objects (every pre-existing address, including the
spec's own objects, resolves exactly as before), and the returned spec is a
reference to a fresh address, not the input one. -/
theorem updateVegaLiteDefaults_no_mutation (h : Heap) (dA : Nat) (spec : JVal) :
    ∃ ext rA, (updateVegaLiteDefaults h dA spec).1 = h ++ ext ∧
      (updateVegaLiteDefaults h dA spec).2 = JVal.ref rA ∧ h.length ≤ rA := by
  by_cases h1 : hasOwn h spec "config" = true
  · by_cases h2 : hasOwn h ((getProp h spec "config").getD .null) "cell" = true
    · simp [updateVegaLiteDefaults, h1, h2]
    · simp [updateVegaLiteDefaults, h1, h2]
  · simp [updateVegaLiteDefaults, h1]

/-- C4: on a spec object with no `config` key, the merge returns a new object
carrying every original key of the spec with its original value (first
conjuncts five and six below), plus a `config` key whose value is an object
whose `cell` is (a reference to) the default record
`\x7bwidth: 400, height: 400/1.5\x7d`. -/
theorem updateVegaLiteDefaults_no_config_adds_default
    (h : Heap) (dA specA : Nat) (specObj : Obj)
    (hspec : h[specA]? = some specObj)
    (hno : specObj.lookup "config" = none)
    (hdef : h[dA]? = some defaultCellConfig) :
    (updateVegaLiteDefaults h dA (.ref specA)).2 = .ref (h.length + 2) ∧
    (updateVegaLiteDefaults h dA (.ref specA)).1[h.length + 2]? =
      some (specObj ++ [("config", JVal.ref h.length)]) ∧
    (updateVegaLiteDefaults h dA (.ref specA)).1[h.length]? =
      some [("cell", JVal.ref dA)] ∧
    (updateVegaLiteDefaults h dA (.ref specA)).1[dA]? = some defaultCellConfig ∧
    (∀ k, ¬(k = "config") →
      (specObj ++ [("config", JVal.ref h.length)]).lookup k = specObj.lookup k) ∧
    (specObj ++ [("config", JVal.ref h.length)]).lookup "config" =
      some (JVal.ref h.length) := by
  have hlt := lt_length_of_getElem h specA specObj hspec
  have hdlt := lt_length_of_getElem h dA defaultCellConfig hdef
  have hcond : hasOwn h (JVal.ref specA) "config" = false := by
    simp [hasOwn, hspec, hno]
  have hre : updateVegaLiteDefaults h dA (.ref specA) =
      (h ++ [[("cell", JVal.ref dA)], [("config", JVal.ref h.length)],
        specObj ++ [("config", JVal.ref h.length)]], .ref (h.length + 2)) := by
    simp only [updateVegaLiteDefaults, hcond, Bool.false_eq_true, if_false]
    have e1 : spreadFields ((h ++ [[("cell", JVal.ref dA)]]) ++
        [[("config", JVal.ref h.length)]]) (JVal.ref specA) = specObj := by
      have hlt2 : specA < (h ++ [[("cell", JVal.ref dA)]]).length := by
        simp only [List.length_append, List.length_cons, List.length_nil]
        omega
      simp only [spreadFields]
      rw [List.getElem?_append_left hlt2, List.getElem?_append_left hlt, hspec]
      rfl
    have e2 : spreadFields ((h ++ [[("cell", JVal.ref dA)]]) ++
        [[("config", JVal.ref h.length)]]) (JVal.ref (h.length + 1)) =
        [("config", JVal.ref h.length)] := by
      have hl1 : (h ++ [[("cell", JVal.ref dA)]]).length = h.length + 1 := by
        simp
      simp only [spreadFields]
      rw [show h.length + 1 = (h ++ [[("cell", JVal.ref dA)]]).length from hl1.symm,
        List.getElem?_concat_length]
      rfl
    rw [e1, e2]
    simp [List.append_assoc]
  rw [hre]
  refine ⟨rfl, ?_, ?_, ?_, ?_, ?_⟩
  · have := getElem_append_offset h
      [[("cell", JVal.ref dA)], [("config", JVal.ref h.length)],
        specObj ++ [("config", JVal.ref h.length)]] 2
    simpa using this
  · have := getElem_append_offset h
      [[("cell", JVal.ref dA)], [("config", JVal.ref h.length)],
        specObj ++ [("config", JVal.ref h.length)]] 0
    simpa using this
  · rw [List.getElem?_append_left hdlt]
    exact hdef
  · intro k hk
    have hb : (k == "config") = false := beq_eq_false_iff_ne.mpr hk
    rcases hx : specObj.lookup k with _ | v
    · simp [List.lookup_append, hx, List.lookup_cons, hb]
    · simp [List.lookup_append, hx]
  · simp [List.lookup_append, hno]

/-- The spec `\x7bmark: "bar"\x7d` (no `config` key): spec object at address 1. -/
def demoHeapD : Heap := [defaultCellConfig, [("mark", JVal.str "bar")]]

/-- Witness for C4 at the concrete no-`config` spec `\x7bmark: "bar"\x7d`. -/
theorem updateVegaLiteDefaults_no_config_adds_default_witness :
    demoHeapD[1]? = some [("mark", JVal.str "bar")] ∧
    ([("mark", JVal.str "bar")] : Obj).lookup "config" = none ∧
    demoHeapD[0]? = some defaultCellConfig ∧
    ((updateVegaLiteDefaults demoHeapD 0 (.ref 1)).2 =
        .ref (demoHeapD.length + 2) ∧
      (updateVegaLiteDefaults demoHeapD 0 (.ref 1)).1[demoHeapD.length + 2]? =
        some ([("mark", JVal.str "bar")] ++
          [("config", JVal.ref demoHeapD.length)]) ∧
      (updateVegaLiteDefaults demoHeapD 0 (.ref 1)).1[demoHeapD.length]? =
        some [("cell", JVal.ref 0)] ∧
      (updateVegaLiteDefaults demoHeapD 0 (.ref 1)).1[0]? =
        some defaultCellConfig ∧
      (∀ k, ¬(k = "config") →
        (([("mark", JVal.str "bar")] : Obj) ++
          [("config", JVal.ref demoHeapD.length)]).lookup k =
            ([("mark", JVal.str "bar")] : Obj).lookup k) ∧
      (([("mark", JVal.str "bar")] : Obj) ++
        [("config", JVal.ref demoHeapD.length)]).lookup "config" =
          some (JVal.ref demoHeapD.length)) :=
  ⟨rfl, rfl, rfl,
    updateVegaLiteDefaults_no_config_adds_default demoHeapD 0 1
      [("mark", JVal.str "bar")] rfl rfl rfl⟩

/-- C10 (amended): when the input spec has a `config` key, the result agrees
with the input at every key the input defines — in particular its `config` is
the caller's original `config` value, so no defaults are injected — but the
merge is not the identity: keys of `spec.config` absent from the spec can
additionally surface at the result's top level (see the counterexample). -/
theorem merge_agrees_on_spec_keys_when_config_present
    (h : Heap) (dA specA : Nat) (specObj : Obj) (cv : JVal)
    (hspec : h[specA]? = some specObj)
    (hconfig : specObj.lookup "config" = some cv) :
    ∃ rA rObj,
      (updateVegaLiteDefaults h dA (.ref specA)).2 = .ref rA ∧
      (updateVegaLiteDefaults h dA (.ref specA)).1[rA]? = some rObj ∧
      (∀ k v, specObj.lookup k = some v → rObj.lookup k = some v) ∧
      rObj.lookup "config" = some cv := by
  have hcond : hasOwn h (JVal.ref specA) "config" = true := by
    simp [hasOwn, hspec, hconfig]
  by_cases hcell :
      hasOwn h ((getProp h (JVal.ref specA) "config").getD JVal.null) "cell" = true
  · have hb : ∃ T,
        (updateVegaLiteDefaults h dA (JVal.ref specA)).1[h.length + 4]? =
          some (specObj ++ T) := by
      simp only [updateVegaLiteDefaults, hcond, hcell, eq_self_iff_true, if_true,
        List.append_assoc, List.singleton_append]
      rw [spreadFields_ref_append h _ specA specObj hspec]
      rw [getElem_append_offset]
      simp only [List.cons_append, List.nil_append, List.getElem?_cons_succ,
        List.getElem?_cons_zero]
      exact ⟨_, rfl⟩
    obtain ⟨T, hb⟩ := hb
    refine ⟨h.length + 4, specObj ++ T, ?_, hb, ?_, ?_⟩
    · simp [updateVegaLiteDefaults, hcond, hcell]
    · intro k v hkv
      simp [List.lookup_append, hkv]
    · simp [List.lookup_append, hconfig]
  · have hcellF :
        hasOwn h ((getProp h (JVal.ref specA) "config").getD JVal.null) "cell" = false := by
      simpa using hcell
    have hb : ∃ T,
        (updateVegaLiteDefaults h dA (JVal.ref specA)).1[h.length + 4]? =
          some (specObj ++ T) := by
      simp only [updateVegaLiteDefaults, hcond, hcellF, eq_self_iff_true, if_true,
        Bool.false_eq_true, if_false, List.append_assoc, List.singleton_append]
      rw [spreadFields_ref_append h _ specA specObj hspec]
      rw [getElem_append_offset]
      simp only [List.cons_append, List.nil_append, List.getElem?_cons_succ,
        List.getElem?_cons_zero]
      exact ⟨_, rfl⟩
    obtain ⟨T, hb⟩ := hb
    refine ⟨h.length + 4, specObj ++ T, ?_, hb, ?_, ?_⟩
    · simp [updateVegaLiteDefaults, hcond, hcellF]
    · intro k v hkv
      simp [List.lookup_append, hkv]
    · simp [List.lookup_append, hconfig]

/-- Witness for the amended C10 at the concrete spec `\x7bconfig: \x7bother: "x"\x7d\x7d`. -/
theorem merge_agrees_on_spec_keys_when_config_present_witness :
    demoHeapC[2]? = some [("config", JVal.ref 1)] ∧
    ([("config", JVal.ref 1)] : Obj).lookup "config" = some (JVal.ref 1) ∧
    (∃ rA rObj,
      (updateVegaLiteDefaults demoHeapC 0 (.ref 2)).2 = .ref rA ∧
      (updateVegaLiteDefaults demoHeapC 0 (.ref 2)).1[rA]? = some rObj ∧
      (∀ k v, ([("config", JVal.ref 1)] : Obj).lookup k = some v →
        rObj.lookup k = some v) ∧
      rObj.lookup "config" = some (JVal.ref 1)) :=
  ⟨rfl, rfl,
    merge_agrees_on_spec_keys_when_config_present demoHeapC 0 2
      [("config", JVal.ref 1)] (JVal.ref 1) rfl rfl⟩

end Vega
